import Mathlib

/-!
# Verification of the setlist-to-spotify pipeline core

A shallow embedding of the three-stage pipeline of this repository:

* `src/setlist-fetcher.ts` — the Aggregator: `fetchSetlistForYear` counts song
  occurrences across all performance records and sets, sorts the distinct names
  by descending frequency with JavaScript's stable `Array.prototype.sort`
  (stability is mandated by ES2019), and assigns positions `1..N`;
  `getAverageSetlist` adds the single-step fallback to the previous year.
* `src/track-matcher.ts` — the Resolver: `searchSpotifyTrack` maps one song
  name to at most one catalog track, turning a 401 into a thrown
  `AuthenticationError` and any other failure into `found: false`;
  `matchAllTracks` runs it sequentially over the ranked songs.
* `src/playlist-creator.ts` — the Builder: `getUserId`,
  `createSpotifyPlaylist` (fixed name format, always private) and
  `addTracksToPlaylist` (skipped entirely on an empty list), combined by
  `createPlaylist`.
* `src/index.ts` — the Orchestrator `handleCreatePlaylist`: validation of the
  request fields, then Aggregator → Resolver → Builder.

Network effects are embedded as oracle functions carried by an `Env` record
(what each external endpoint would answer), and the observable interaction of
a run is instrumented as an explicit trace: the years fetched from
setlist.fm, the song names looked up on the catalog, and the Spotify calls
issued by the Builder.  Thrown JavaScript errors are embedded as `Except`.
-/

/-- A ranked song as produced by the Aggregator (`SetlistSong` in
`setlist-fetcher.ts`): a name and a 1-based position. -/
structure SetlistSong where
  name : String
  position : Nat
deriving DecidableEq, Repr

/-- The error kinds of `error-handler.ts` that the embedded pipeline can
surface (`ValidationError`, `AuthenticationError`, `ExternalAPIError`,
`DataNotFoundError`). -/
inductive AppError
  | ValidationError (field : String)
  | AuthenticationError
  | ExternalAPIError (service : String)
  | DataNotFoundError (artistId : String) (targetYear retryYear : Int)
deriving DecidableEq, Repr

/-! ## Aggregator (`setlist-fetcher.ts`) -/

/-- One step of the frequency-count loop of `fetchSetlistForYear`:
`const count = songFrequency.get(song.name) || 0; songFrequency.set(song.name, count + 1)`.
A JavaScript `Map` keeps insertion order, so it is embedded as an association
list: an update in place for a present key, an append for a new key. -/
def insertCount (m : List (String × Nat)) (name : String) : List (String × Nat) :=
  if m.any (fun p => p.1 == name) then
    m.map (fun p => if p.1 == name then (p.1, p.2 + 1) else p)
  else
    m ++ [(name, 1)]

/-- The sequence of song names visited by the triple loop of
`fetchSetlistForYear` (over `response.data.setlist`, each setlist's
`sets.set`, each set's `song`), in visit order.  A missing or empty song
list is an empty inner list. -/
def allSongs (records : List (List (List String))) : List String :=
  records.flatten.flatten

/-- The `songFrequency` map at the end of the counting loop, as an
insertion-ordered association list. -/
def songFrequency (records : List (List (List String))) : List (String × Nat) :=
  (allSongs records).foldl insertCount []

/-- One insertion step of a stable descending sort by count: the element is
placed after every earlier element with a strictly larger count and before
the first one with a smaller-or-equal count, which is exactly the relative
order the ES2019-stable `sort((a, b) => b[1] - a[1])` produces. -/
def insertDesc (x : String × Nat) : List (String × Nat) → List (String × Nat)
  | [] => [x]
  | y :: ys => if y.2 > x.2 then y :: insertDesc x ys else x :: y :: ys

/-- The stable descending-by-count sort applied to the frequency entries
(`Array.from(songFrequency.entries()).sort((a, b) => b[1] - a[1])`). -/
def sortByFreq (l : List (String × Nat)) : List (String × Nat) :=
  l.foldr insertDesc []

/-- The pure core of `fetchSetlistForYear` in `setlist-fetcher.ts`: count
song frequencies across all records, sort by descending frequency (stable),
and assign positions `index + 1`. -/
def fetchSetlistForYear (records : List (List (List String))) : List SetlistSong :=
  (sortByFreq (songFrequency records)).enum.map (fun p => ⟨p.2.1, p.1 + 1⟩)

/-- The distinct song names of a list in order of first occurrence (the key
order of the JavaScript `Map` built by the counting loop). -/
def dedupFirst (l : List String) : List String :=
  l.foldl (fun acc x => if x ∈ acc then acc else acc ++ [x]) []

/-- How often a song name occurs across all records, sets and performances. -/
def songCount (records : List (List (List String))) (n : String) : Nat :=
  (allSongs records).count n

/-- The first-observed rank of a song name: its index in the first-occurrence
ordering of the aggregated records. -/
def firstSeenRank (records : List (List (List String))) (n : String) : Nat :=
  (dedupFirst (allSongs records)).indexOf n

/-- `getAverageSetlist` of `setlist-fetcher.ts`, over an oracle `fetch` that
returns the (already aggregated) songs a fetch for a given year yields.  The
second component records which years were fetched, in order.  The year
defaults to the current calendar year when absent
(`year ?? new Date().getFullYear()`). -/
def getAverageSetlist (fetch : Int → List SetlistSong) (artistId : String)
    (year : Option Int) (currentYear : Int) :
    Except AppError (List SetlistSong) × List Int :=
  let targetYear := year.getD currentYear
  let songs := fetch targetYear
  if songs.length = 0 then
    let retryYear := targetYear - 1
    let retrySongs := fetch retryYear
    if retrySongs.length = 0 then
      (.error (.DataNotFoundError artistId targetYear retryYear), [targetYear, retryYear])
    else
      (.ok retrySongs, [targetYear, retryYear])
  else
    (.ok songs, [targetYear])

/-! ## Resolver (`track-matcher.ts`) -/

/-- What the Spotify search endpoint answers for one `(songName, artistName)`
query: a top candidate, no candidate, an HTTP 401, or any other failure. -/
inductive SearchOutcome
  | foundTrack (uri : String)
  | notFound
  | authError
  | otherError
deriving DecidableEq, Repr

/-- `TrackSearchResult` of `track-matcher.ts`: `trackUri` is `none` for the
JavaScript `null`. -/
structure TrackSearchResult where
  songName : String
  trackUri : Option String
  found : Bool
deriving DecidableEq, Repr

/-- `searchSpotifyTrack` of `track-matcher.ts` over a search oracle: a found
candidate yields `{songName, trackUri, found: true}`; no candidate yields
`{songName, null, false}`; a 401 throws `AuthenticationError`; any other
failure is swallowed into `{songName, null, false}`. -/
def searchSpotifyTrack (lookup : String → String → SearchOutcome)
    (songName artistName : String) : Except AppError TrackSearchResult :=
  match lookup songName artistName with
  | .foundTrack uri => .ok ⟨songName, some uri, true⟩
  | .notFound => .ok ⟨songName, none, false⟩
  | .authError => .error .AuthenticationError
  | .otherError => .ok ⟨songName, none, false⟩

/-- The result `searchSpotifyTrack` returns when the outcome is not a 401
(used to state what the successful resolution pass produces). -/
def searchOk (lookup : String → String → SearchOutcome)
    (songName artistName : String) : TrackSearchResult :=
  match lookup songName artistName with
  | .foundTrack uri => ⟨songName, some uri, true⟩
  | _ => ⟨songName, none, false⟩

/-- `matchAllTracks` of `track-matcher.ts`: the sequential loop over the
songs.  A thrown `AuthenticationError` propagates out of the loop, so no
further song is looked up.  The second component records the song names that
were actually looked up, in order. -/
def matchAllTracks (lookup : String → String → SearchOutcome)
    (songs : List SetlistSong) (artistName : String) :
    Except AppError (List TrackSearchResult) × List String :=
  match songs with
  | [] => (.ok [], [])
  | s :: rest =>
    match searchSpotifyTrack lookup s.name artistName with
    | .error e => (.error e, [s.name])
    | .ok r =>
      match matchAllTracks lookup rest artistName with
      | (.error e, tr) => (.error e, s.name :: tr)
      | (.ok rs, tr) => (.ok (r :: rs), s.name :: tr)

/-! ## Builder (`playlist-creator.ts`) -/

/-- One observable Spotify API call issued by the Builder. -/
inductive SpotifyCall
  | getUser
  | createCall (userId plName : String) (isPublic : Bool) (description : String)
  | addItems (playlistId : String) (uris : List String)
deriving DecidableEq, Repr

/-- `PlaylistCreationResult` of `playlist-creator.ts`. -/
structure PlaylistCreationResult where
  playlistId : String
  tracksAdded : Nat
  year : Int
deriving DecidableEq, Repr

/-- The environment of one pipeline run: what each external endpoint would
answer.  `userIdResult`, `createResult` and `addResult` are the outcomes of
the three Spotify endpoints the Builder talks to; `apiKey` is
`process.env.SETLISTFM_API_KEY` (absent or empty ⇒ `none`). -/
structure Env where
  fetchSongs : Int → List SetlistSong
  lookup : String → String → SearchOutcome
  userIdResult : Except AppError String
  createResult : Except AppError String
  addResult : Except AppError Unit
  apiKey : Option String

/-- `getUserId` of `playlist-creator.ts`: one call to `/v1/me`. -/
def getUserId (env : Env) : Except AppError String × List SpotifyCall :=
  (env.userIdResult, [.getUser])

/-- The fixed playlist name of `createSpotifyPlaylist`:
`` `${artistName} — Average Setlist ${year}` `` (em-dash, exact spacing). -/
def createSpotifyPlaylistName (artistName : String) (year : Int) : String :=
  artistName ++ " — Average Setlist " ++ toString year

/-- The playlist description of `createSpotifyPlaylist`:
`` `Average setlist for ${artistName} in ${year}` ``. -/
def createSpotifyPlaylistDescription (artistName : String) (year : Int) : String :=
  "Average setlist for " ++ artistName ++ " in " ++ toString year

/-- `createSpotifyPlaylist` of `playlist-creator.ts`: posts one creation call
with the fixed name and `public: false`, and returns the new playlist id. -/
def createSpotifyPlaylist (env : Env) (userId artistName : String) (year : Int) :
    Except AppError String × List SpotifyCall :=
  (env.createResult,
   [.createCall userId (createSpotifyPlaylistName artistName year) false
      (createSpotifyPlaylistDescription artistName year)])

/-- `addTracksToPlaylist` of `playlist-creator.ts`: returns immediately on an
empty list (no call, no error); otherwise issues a single population call
carrying all URIs in input order. -/
def addTracksToPlaylist (env : Env) (playlistId : String) (trackUris : List String) :
    Except AppError Unit × List SpotifyCall :=
  if trackUris.length = 0 then
    (.ok (), [])
  else
    (env.addResult, [.addItems playlistId trackUris])

/-- `createPlaylist` of `playlist-creator.ts`: user lookup, then creation,
then population; any error propagates and stops the later calls. -/
def createPlaylist (env : Env) (artistName : String) (year : Int)
    (trackUris : List String) :
    Except AppError PlaylistCreationResult × List SpotifyCall :=
  match getUserId env with
  | (.error e, calls1) => (.error e, calls1)
  | (.ok userId, calls1) =>
    match createSpotifyPlaylist env userId artistName year with
    | (.error e, calls2) => (.error e, calls1 ++ calls2)
    | (.ok playlistId, calls2) =>
      match addTracksToPlaylist env playlistId trackUris with
      | (.error e, calls3) => (.error e, calls1 ++ calls2 ++ calls3)
      | (.ok _, calls3) =>
        (.ok ⟨playlistId, trackUris.length, year⟩, calls1 ++ calls2 ++ calls3)

/-- Recognises the creation call in a Builder trace. -/
def isCreateCall : SpotifyCall → Bool
  | .createCall _ _ _ _ => true
  | _ => false

/-- Recognises the population call in a Builder trace. -/
def isAddCall : SpotifyCall → Bool
  | .addItems _ _ => true
  | _ => false

/-! ## Orchestrator (`index.ts`) -/

/-- The blank test of the validation guards in `index.ts`:
`!field || field.trim() === ''` holds exactly when every character of the
string is whitespace (the empty string included). -/
def isBlank (s : String) : Bool :=
  s.toList.all (fun c => c.isWhitespace)

/-- `CreatePlaylistRequest` of `index.ts`. -/
structure CreatePlaylistRequest where
  artistId : String
  artistName : String
  year : Option Int
  accessToken : String

/-- The observable interaction of one pipeline run: years fetched from
setlist.fm, song names looked up on the catalog, Spotify calls issued. -/
structure PipelineTrace where
  fetchedYears : List Int
  lookedUp : List String
  spotifyCalls : List SpotifyCall
deriving DecidableEq, Repr

/-- The trace of a run that never reached an external service. -/
def emptyTrace : PipelineTrace := ⟨[], [], []⟩

/-- The projection `index.ts` applies to the resolution results:
`filter(r => r.found && r.trackUri !== null).map(r => r.trackUri as string)`. -/
def trackUrisOf (results : List TrackSearchResult) : List String :=
  (results.filter (fun r => r.found && r.trackUri.isSome)).map
    (fun r => r.trackUri.getD "")

/-- `handleCreatePlaylist` of `index.ts`: validate the request fields, check
the API key, then Aggregator → Resolver → Builder, with every thrown error
propagating unchanged. -/
def handleCreatePlaylist (env : Env) (req : CreatePlaylistRequest)
    (currentYear : Int) :
    Except AppError PlaylistCreationResult × PipelineTrace :=
  if isBlank req.accessToken then
    (.error (.ValidationError "accessToken"), emptyTrace)
  else if isBlank req.artistId then
    (.error (.ValidationError "artistId"), emptyTrace)
  else if isBlank req.artistName then
    (.error (.ValidationError "artistName"), emptyTrace)
  else
    match env.apiKey with
    | none => (.error (.ValidationError "SETLISTFM_API_KEY"), emptyTrace)
    | some _ =>
      match getAverageSetlist env.fetchSongs req.artistId req.year currentYear with
      | (.error e, yrs) => (.error e, ⟨yrs, [], []⟩)
      | (.ok songs, yrs) =>
        match matchAllTracks env.lookup songs req.artistName with
        | (.error e, looked) => (.error e, ⟨yrs, looked, []⟩)
        | (.ok results, looked) =>
          let actualYear := req.year.getD currentYear
          match createPlaylist env req.artistName actualYear (trackUrisOf results) with
          | (.error e, calls) => (.error e, ⟨yrs, looked, calls⟩)
          | (.ok pr, calls) => (.ok pr, ⟨yrs, looked, calls⟩)

/-! ## Concrete sample data

Sample oracles and requests used to evaluate the verified statements on
concrete runs. -/

/-- A fetch oracle with data only for 2023: the 2024 fetch yields nothing and
forces the one-step fallback. -/
def exFetch : Int → List SetlistSong :=
  fun y => if y = 2023 then [⟨"X", 1⟩] else []

/-- A fetch oracle with data for 2024. -/
def exFetchPrimary : Int → List SetlistSong :=
  fun y => if y = 2024 then [⟨"A", 1⟩, ⟨"B", 2⟩, ⟨"C", 3⟩] else []

/-- A search oracle: finds `A`, transiently fails on `B`, and has no
candidate for anything else. -/
def exLookup : String → String → SearchOutcome :=
  fun n _ =>
    if n = "A" then .foundTrack "spotify:track:a"
    else if n = "B" then .otherError
    else .notFound

/-- A search oracle whose credential has expired for every song after `A`. -/
def exLookupAuth : String → String → SearchOutcome :=
  fun n _ => if n = "A" then .foundTrack "spotify:track:a" else .authError

/-- A fully healthy environment over `exFetchPrimary` and `exLookup`. -/
def exEnv : Env :=
  { fetchSongs := exFetchPrimary, lookup := exLookup,
    userIdResult := .ok "user1", createResult := .ok "pl1",
    addResult := .ok (), apiKey := some "key" }

/-- `exEnv` with the expiring credential of `exLookupAuth`. -/
def exEnvAuth : Env :=
  { exEnv with lookup := exLookupAuth }

/-- `exEnv` drawing on the fallback-only fetch oracle `exFetch`. -/
def exEnvFallback : Env :=
  { exEnv with fetchSongs := exFetch }

/-- A well-formed sample request for 2024. -/
def exReq : CreatePlaylistRequest :=
  ⟨"artist1", "The Band", some 2024, "token1"⟩

/-- `exReq` with a blank artist id. -/
def exReqBlankId : CreatePlaylistRequest :=
  ⟨"  ", "The Band", some 2024, "token1"⟩

/-! ## Lemmas about the stable descending sort -/

theorem mem_insertDesc {a x : String × Nat} {l : List (String × Nat)} :
    a ∈ insertDesc x l ↔ a = x ∨ a ∈ l := by
  induction l with
  | nil => simp [insertDesc]
  | cons y ys ih =>
    by_cases h : y.2 > x.2
    · simp only [insertDesc, if_pos h, List.mem_cons, ih]
      tauto
    · simp only [insertDesc, if_neg h, List.mem_cons]

theorem insertDesc_perm (x : String × Nat) (l : List (String × Nat)) :
    (insertDesc x l).Perm (x :: l) := by
  induction l with
  | nil => simp [insertDesc]
  | cons y ys ih =>
    by_cases h : y.2 > x.2
    · simp only [insertDesc, if_pos h]
      exact (ih.cons y).trans (List.Perm.swap x y ys)
    · simp [insertDesc, if_neg h]

theorem sortByFreq_perm (l : List (String × Nat)) : (sortByFreq l).Perm l := by
  induction l with
  | nil => simp [sortByFreq]
  | cons x xs ih =>
    have hstep : sortByFreq (x :: xs) = insertDesc x (sortByFreq xs) := rfl
    rw [hstep]
    exact (insertDesc_perm x (sortByFreq xs)).trans (ih.cons x)

theorem insertDesc_pairwise {S : String × Nat → String × Nat → Prop}
    {x : String × Nat} {m : List (String × Nat)}
    (hm : m.Pairwise (fun p q => q.2 ≤ p.2 ∧ (p.2 = q.2 → S p q)))
    (hx : ∀ q ∈ m, S x q) :
    (insertDesc x m).Pairwise (fun p q => q.2 ≤ p.2 ∧ (p.2 = q.2 → S p q)) := by
  induction m with
  | nil => simp [insertDesc]
  | cons y ys ih =>
    rcases List.pairwise_cons.mp hm with ⟨hy, hys⟩
    by_cases h : y.2 > x.2
    · simp only [insertDesc, if_pos h]
      refine List.pairwise_cons.mpr
        ⟨?_, ih hys (fun q hq => hx q (List.mem_cons_of_mem y hq))⟩
      intro z hz
      rcases mem_insertDesc.mp hz with rfl | hz2
      · exact ⟨le_of_lt h, fun he => absurd he (ne_of_gt h)⟩
      · exact hy z hz2
    · simp only [insertDesc, if_neg h]
      push_neg at h
      refine List.pairwise_cons.mpr ⟨?_, List.pairwise_cons.mpr ⟨hy, hys⟩⟩
      intro z hz
      rcases List.mem_cons.mp hz with rfl | hz2
      · exact ⟨h, fun _ => hx z (List.mem_cons_self z ys)⟩
      · have hzy := hy z hz2
        exact ⟨le_trans hzy.1 h, fun _ => hx z (List.mem_cons_of_mem y hz2)⟩

theorem sortByFreq_pairwise {S : String × Nat → String × Nat → Prop}
    {l : List (String × Nat)} (hl : l.Pairwise S) :
    (sortByFreq l).Pairwise (fun p q => q.2 ≤ p.2 ∧ (p.2 = q.2 → S p q)) := by
  induction hl with
  | nil => simp [sortByFreq]
  | @cons x xs hx hxs ih =>
    have hstep : sortByFreq (x :: xs) = insertDesc x (sortByFreq xs) := rfl
    rw [hstep]
    exact insertDesc_pairwise ih
      (fun q hq => hx q ((sortByFreq_perm xs).mem_iff.mp hq))

/-! ## Lemmas about first-occurrence deduplication -/

theorem mem_dedupFirst_loop (l : List String) :
    ∀ (acc : List String) (a : String),
      (a ∈ l.foldl (fun acc x => if x ∈ acc then acc else acc ++ [x]) acc ↔
        a ∈ acc ∨ a ∈ l) := by
  induction l with
  | nil => intro acc a; simp
  | cons x xs ih =>
    intro acc a
    simp only [List.foldl_cons]
    by_cases h : x ∈ acc
    · rw [if_pos h, ih]
      constructor
      · rintro (h1 | h1)
        · exact Or.inl h1
        · exact Or.inr (List.mem_cons_of_mem x h1)
      · rintro (h1 | h1)
        · exact Or.inl h1
        · rcases List.mem_cons.mp h1 with rfl | h2
          · exact Or.inl h
          · exact Or.inr h2
    · rw [if_neg h, ih]
      simp only [List.mem_append, List.mem_singleton, List.mem_cons]
      tauto

theorem mem_dedupFirst {a : String} {l : List String} :
    a ∈ dedupFirst l ↔ a ∈ l := by
  unfold dedupFirst
  rw [mem_dedupFirst_loop]
  simp

theorem nodup_dedupFirst_loop (l : List String) :
    ∀ (acc : List String), acc.Nodup →
      (l.foldl (fun acc x => if x ∈ acc then acc else acc ++ [x]) acc).Nodup := by
  induction l with
  | nil => intro acc h; exact h
  | cons x xs ih =>
    intro acc h
    simp only [List.foldl_cons]
    by_cases hx : x ∈ acc
    · rw [if_pos hx]; exact ih acc h
    · rw [if_neg hx]
      refine ih (acc ++ [x]) ?_
      simp [List.nodup_append, h, hx]

theorem nodup_dedupFirst (l : List String) : (dedupFirst l).Nodup :=
  nodup_dedupFirst_loop l [] List.nodup_nil

theorem dedupFirst_append_singleton (l : List String) (x : String) :
    dedupFirst (l ++ [x]) =
      if x ∈ l then dedupFirst l else dedupFirst l ++ [x] := by
  unfold dedupFirst
  rw [List.foldl_append]
  simp only [List.foldl_cons, List.foldl_nil]
  by_cases h : x ∈ l
  · rw [if_pos, if_pos h]
    rw [mem_dedupFirst_loop]
    simp [h]
  · rw [if_neg, if_neg h]
    rw [mem_dedupFirst_loop]
    simp [h]

/-! ## Lemmas about the frequency count -/

theorem insertCount_fst (m : List (String × Nat)) (x : String) :
    (insertCount m x).map Prod.fst =
      if x ∈ m.map Prod.fst then m.map Prod.fst else m.map Prod.fst ++ [x] := by
  unfold insertCount
  by_cases h : x ∈ m.map Prod.fst
  · have hany : (m.any fun p => p.1 == x) = true := by
      rcases List.mem_map.mp h with ⟨p, hp, he⟩
      exact List.any_eq_true.mpr ⟨p, hp, by simp [he]⟩
    rw [if_pos hany, if_pos h, List.map_map]
    refine List.map_congr_left ?_
    intro p _
    show (if (p.1 == x) = true then (p.1, p.2 + 1) else p).1 = p.1
    split <;> rfl
  · have hany : ¬ ((m.any fun p => p.1 == x) = true) := by
      intro hc
      rcases List.any_eq_true.mp hc with ⟨p, hp, he⟩
      exact h (List.mem_map.mpr ⟨p, hp, by simpa using he⟩)
    rw [if_neg hany, if_neg h, List.map_append]
    rfl

theorem songFrequency_loop (l : List String) :
    ∀ (done : List String) (m : List (String × Nat)),
      m.map Prod.fst = dedupFirst done →
      (∀ p ∈ m, p.2 = done.count p.1) →
      ((l.foldl insertCount m).map Prod.fst = dedupFirst (done ++ l) ∧
        ∀ p ∈ l.foldl insertCount m, p.2 = (done ++ l).count p.1) := by
  induction l with
  | nil =>
    intro done m h1 h2
    simp only [List.foldl_nil, List.append_nil]
    exact ⟨h1, h2⟩
  | cons x xs ih =>
    intro done m h1 h2
    have hstep1 : (insertCount m x).map Prod.fst = dedupFirst (done ++ [x]) := by
      rw [insertCount_fst, h1, dedupFirst_append_singleton]
      simp only [mem_dedupFirst]
    have hstep2 : ∀ p ∈ insertCount m x, p.2 = (done ++ [x]).count p.1 := by
      intro p hp
      unfold insertCount at hp
      by_cases hx : x ∈ m.map Prod.fst
      · have hany : (m.any fun q => q.1 == x) = true := by
          rcases List.mem_map.mp hx with ⟨q, hq, he⟩
          exact List.any_eq_true.mpr ⟨q, hq, by simp [he]⟩
        rw [if_pos hany] at hp
        rcases List.mem_map.mp hp with ⟨q, hq, hpq⟩
        by_cases hqx : q.1 = x
        · rw [if_pos (by simpa using hqx)] at hpq
          have hp1 : p.1 = x := by rw [← hpq, hqx]
          have hp2 : p.2 = q.2 + 1 := by rw [← hpq]
          rw [hp2, h2 q hq, hqx, hp1, List.count_append, List.count_singleton]
          simp
        · rw [if_neg (by simpa using hqx)] at hpq
          rw [← hpq, h2 q hq, List.count_append, List.count_singleton]
          have : ¬ (x == q.1) = true := by simpa using fun he => hqx he.symm
          simp [this]
      · have hany : ¬ ((m.any fun q => q.1 == x) = true) := by
          intro hc
          rcases List.any_eq_true.mp hc with ⟨q, hq, he⟩
          exact hx (List.mem_map.mpr ⟨q, hq, by simpa using he⟩)
        rw [if_neg hany] at hp
        rcases List.mem_append.mp hp with hpm | hps
        · have hne : p.1 ≠ x := by
            intro he
            exact hx (he ▸ List.mem_map.mpr ⟨p, hpm, rfl⟩)
          rw [h2 p hpm, List.count_append, List.count_singleton]
          have : ¬ (x == p.1) = true := by simpa using fun he => hne he.symm
          simp [this]
        · have hpx : p = (x, 1) := by simpa using hps
          have hxdone : x ∉ done := by
            intro hd
            exact hx (h1 ▸ mem_dedupFirst.mpr hd)
          rw [hpx]
          simp [List.count_append, List.count_singleton,
            List.count_eq_zero.mpr hxdone]
    have hrec := ih (done ++ [x]) (insertCount m x) hstep1 hstep2
    have heq : done ++ x :: xs = (done ++ [x]) ++ xs := by simp
    simp only [List.foldl_cons]
    rw [heq]
    exact hrec

theorem songFrequency_fst (records : List (List (List String))) :
    (songFrequency records).map Prod.fst = dedupFirst (allSongs records) := by
  have h := (songFrequency_loop (allSongs records) [] [] rfl (by simp)).1
  simpa using h

theorem songFrequency_count (records : List (List (List String))) :
    ∀ p ∈ songFrequency records, p.2 = (allSongs records).count p.1 := by
  have h := (songFrequency_loop (allSongs records) [] [] rfl (by simp)).2
  simpa using h

/-! ## Lemmas about first-seen ranks and enumeration -/

theorem nodup_pairwise_indexOf :
    ∀ (l : List String), l.Nodup →
      l.Pairwise (fun a b => l.indexOf a < l.indexOf b) := by
  intro l
  induction l with
  | nil => intro _; simp
  | cons x xs ih =>
    intro h
    rcases List.nodup_cons.mp h with ⟨hx, hxs⟩
    refine List.pairwise_cons.mpr ⟨?_, ?_⟩
    · intro b hb
      have hxb : x ≠ b := fun he => hx (he ▸ hb)
      rw [List.indexOf_cons_self, List.indexOf_cons_ne xs hxb]
      exact Nat.succ_pos _
    · refine List.Pairwise.imp_of_mem ?_ (ih hxs)
      intro a b ha hb hr
      have hxa : x ≠ a := fun he => hx (he ▸ ha)
      have hxb : x ≠ b := fun he => hx (he ▸ hb)
      rw [List.indexOf_cons_ne xs hxa, List.indexOf_cons_ne xs hxb]
      exact Nat.succ_lt_succ hr

theorem enumFrom_map_snd_apply {α β : Type} (h : α → β) :
    ∀ (n : Nat) (l : List α),
      (List.enumFrom n l).map (fun p => h p.2) = l.map h := by
  intro n l
  induction l generalizing n with
  | nil => rfl
  | cons x xs ih => simp [List.enumFrom, ih]

theorem enumFrom_map_fst_succ {α : Type} :
    ∀ (n : Nat) (l : List α),
      (List.enumFrom n l).map (fun p => p.1 + 1) = List.range' (n + 1) l.length := by
  intro n l
  induction l generalizing n with
  | nil => rfl
  | cons x xs ih => simp [List.enumFrom, List.range', ih]

theorem fetchSetlistForYear_positions (records : List (List (List String))) :
    (fetchSetlistForYear records).map (fun s => s.position) =
      List.range' 1 (fetchSetlistForYear records).length := by
  unfold fetchSetlistForYear
  rw [List.map_map, List.length_map, List.enum_length]
  exact enumFrom_map_fst_succ 0 _

theorem fetchSetlistForYear_names (records : List (List (List String))) :
    (fetchSetlistForYear records).map (fun s => s.name) =
      (sortByFreq (songFrequency records)).map Prod.fst := by
  unfold fetchSetlistForYear
  rw [List.map_map]
  exact enumFrom_map_snd_apply Prod.fst 0 _

theorem sortByFreq_names_perm (records : List (List (List String))) :
    ((sortByFreq (songFrequency records)).map Prod.fst).Perm
      (dedupFirst (allSongs records)) := by
  have h := (sortByFreq_perm (songFrequency records)).map Prod.fst
  rw [songFrequency_fst] at h
  exact h

theorem sortByFreq_names_pairwise (records : List (List (List String))) :
    ((sortByFreq (songFrequency records)).map Prod.fst).Pairwise
      (fun a b => songCount records b < songCount records a ∨
        (songCount records a = songCount records b ∧
          firstSeenRank records a < firstSeenRank records b)) := by
  have hnodup := nodup_dedupFirst (allSongs records)
  have hidx := nodup_pairwise_indexOf _ hnodup
  have hidx2 : (dedupFirst (allSongs records)).Pairwise
      (fun a b => firstSeenRank records a < firstSeenRank records b) := hidx
  rw [← songFrequency_fst] at hidx2
  have hfreq := List.pairwise_map.mp hidx2
  have hsorted := sortByFreq_pairwise hfreq
  refine List.pairwise_map.mpr ?_
  refine List.Pairwise.imp_of_mem ?_ hsorted
  intro p q hp hq hr
  have hpc : p.2 = songCount records p.1 :=
    songFrequency_count records p ((sortByFreq_perm _).subset hp)
  have hqc : q.2 = songCount records q.1 :=
    songFrequency_count records q ((sortByFreq_perm _).subset hq)
  rcases lt_or_eq_of_le hr.1 with hlt | heq
  · left
    rw [← hpc, ← hqc]
    exact hlt
  · right
    refine ⟨by rw [← hpc, ← hqc]; exact heq.symm, hr.2 heq.symm⟩

/-- C1: for every collection of raw performance records, `fetchSetlistForYear`
counts every occurrence of each distinct song name across all records and
sets (an empty record contributes nothing, duplicates within one performance
each count, both inherent in `allSongs`), and returns the distinct songs
sorted by descending frequency with ties in first-observed order, with
positions exactly the contiguous sequence `1..N` for `N` distinct names. -/
theorem fetchSetlistForYear_spec (records : List (List (List String))) :
    ((fetchSetlistForYear records).map (fun s => s.position) =
        List.range' 1 (fetchSetlistForYear records).length) ∧
    (fetchSetlistForYear records).length = (dedupFirst (allSongs records)).length ∧
    (∀ n, n ∈ (fetchSetlistForYear records).map (fun s => s.name) ↔
        n ∈ allSongs records) ∧
    ((fetchSetlistForYear records).map (fun s => s.name)).Nodup ∧
    ((fetchSetlistForYear records).map (fun s => s.name)).Pairwise
      (fun a b => songCount records b < songCount records a ∨
        (songCount records a = songCount records b ∧
          firstSeenRank records a < firstSeenRank records b)) ∧
    fetchSetlistForYear ([] :: records) = fetchSetlistForYear records := by
  refine ⟨fetchSetlistForYear_positions records, ?_, ?_, ?_, ?_, ?_⟩
  · have h1 : (fetchSetlistForYear records).length
        = (sortByFreq (songFrequency records)).length := by
      unfold fetchSetlistForYear
      rw [List.length_map, List.enum_length]
    have h2 := (sortByFreq_perm (songFrequency records)).length_eq
    have h3 : (songFrequency records).length = (dedupFirst (allSongs records)).length := by
      rw [← songFrequency_fst, List.length_map]
    rw [h1, h2, h3]
  · intro n
    rw [fetchSetlistForYear_names, (sortByFreq_names_perm records).mem_iff]
    exact mem_dedupFirst
  · rw [fetchSetlistForYear_names]
    exact (sortByFreq_names_perm records).symm.nodup (nodup_dedupFirst _)
  · rw [fetchSetlistForYear_names]
    exact sortByFreq_names_pairwise records
  · unfold fetchSetlistForYear songFrequency allSongs
    simp

/-- C2: if the fetch for the target year succeeds with zero songs,
`getAverageSetlist` fetches exactly once more, for `year - 1`, and returns
that result when non-empty; when that one is empty too it fails with
`DataNotFoundError` naming the artist and both years; a non-empty first
fetch triggers no second fetch.  The fetched-years trace makes "exactly one
further fetch, never year - 2" observable. -/
theorem getAverageSetlist_fallback (fetch : Int → List SetlistSong)
    (artistId : String) (year : Option Int) (currentYear : Int) :
    (fetch (year.getD currentYear) ≠ [] →
      getAverageSetlist fetch artistId year currentYear =
        (.ok (fetch (year.getD currentYear)), [year.getD currentYear])) ∧
    (fetch (year.getD currentYear) = [] →
      fetch (year.getD currentYear - 1) ≠ [] →
      getAverageSetlist fetch artistId year currentYear =
        (.ok (fetch (year.getD currentYear - 1)),
         [year.getD currentYear, year.getD currentYear - 1])) ∧
    (fetch (year.getD currentYear) = [] →
      fetch (year.getD currentYear - 1) = [] →
      getAverageSetlist fetch artistId year currentYear =
        (.error (.DataNotFoundError artistId (year.getD currentYear)
            (year.getD currentYear - 1)),
         [year.getD currentYear, year.getD currentYear - 1])) := by
  have hz : ∀ l : List SetlistSong, l ≠ [] → ¬ (l.length = 0) :=
    fun l hl hc => hl (List.length_eq_zero.mp hc)
  refine ⟨?_, ?_, ?_⟩
  · intro h1
    simp only [getAverageSetlist]
    rw [if_neg (hz _ h1)]
  · intro h1 h2
    simp only [getAverageSetlist]
    rw [if_pos (by simp [h1]), if_neg (hz _ h2)]
  · intro h1 h2
    simp only [getAverageSetlist]
    rw [if_pos (by simp [h1]), if_pos (by simp [h2])]

/-! ## Lemmas about the Resolver -/

theorem searchSpotifyTrack_not_auth (lookup : String → String → SearchOutcome)
    (songName artistName : String)
    (h : lookup songName artistName ≠ .authError) :
    searchSpotifyTrack lookup songName artistName =
      .ok (searchOk lookup songName artistName) := by
  cases hl : lookup songName artistName with
  | foundTrack uri => simp [searchSpotifyTrack, searchOk, hl]
  | notFound => simp [searchSpotifyTrack, searchOk, hl]
  | authError => exact absurd hl h
  | otherError => simp [searchSpotifyTrack, searchOk, hl]

theorem searchOk_songName (lookup : String → String → SearchOutcome)
    (songName artistName : String) :
    (searchOk lookup songName artistName).songName = songName := by
  unfold searchOk
  cases lookup songName artistName <;> rfl

theorem searchOk_found_trackUri (lookup : String → String → SearchOutcome)
    (songName artistName : String) :
    ((searchOk lookup songName artistName).found = true →
      (searchOk lookup songName artistName).trackUri.isSome = true) ∧
    ((searchOk lookup songName artistName).found = false →
      (searchOk lookup songName artistName).trackUri = none) := by
  unfold searchOk
  cases lookup songName artistName <;> simp

theorem matchAllTracks_no_auth (lookup : String → String → SearchOutcome)
    (artistName : String) :
    ∀ songs : List SetlistSong,
      (∀ s ∈ songs, lookup s.name artistName ≠ .authError) →
      matchAllTracks lookup songs artistName =
        (.ok (songs.map (fun s => searchOk lookup s.name artistName)),
         songs.map (fun s => s.name)) := by
  intro songs
  induction songs with
  | nil => intro _; rfl
  | cons s rest ih =>
    intro h
    have hs := h s (List.mem_cons_self s rest)
    have hrest := ih (fun t ht => h t (List.mem_cons_of_mem s ht))
    simp only [matchAllTracks, searchSpotifyTrack_not_auth lookup s.name artistName hs,
      hrest, List.map_cons]

/-- C3: with no authentication failure, `matchAllTracks` returns exactly one
`TrackSearchResult` per input song, in input order (a map, not a filter),
and `found = false` forces `trackUri = null`. -/
theorem matchAllTracks_map_not_filter (lookup : String → String → SearchOutcome)
    (artistName : String) (songs : List SetlistSong)
    (h : ∀ s ∈ songs, lookup s.name artistName ≠ .authError) :
    ∃ results, (matchAllTracks lookup songs artistName).1 = .ok results ∧
      results.length = songs.length ∧
      results.map (fun r => r.songName) = songs.map (fun s => s.name) ∧
      ∀ r ∈ results, r.found = false → r.trackUri = none := by
  refine ⟨songs.map (fun s => searchOk lookup s.name artistName), ?_, ?_, ?_, ?_⟩
  · rw [matchAllTracks_no_auth lookup artistName songs h]
  · rw [List.length_map]
  · rw [List.map_map]
    refine List.map_congr_left ?_
    intro s _
    exact searchOk_songName lookup s.name artistName
  · intro r hr hf
    rcases List.mem_map.mp hr with ⟨s, _, rfl⟩
    exact (searchOk_found_trackUri lookup s.name artistName).2 hf

/-- Witness for C3 at a concrete run: three songs, one found, one transient
failure, one not found — three results in input order. -/
theorem matchAllTracks_map_not_filter_witness :
    ∃ results,
      (matchAllTracks exLookup [⟨"A", 1⟩, ⟨"B", 2⟩, ⟨"C", 3⟩] "The Band").1 =
        .ok results ∧
      results.length = ([⟨"A", 1⟩, ⟨"B", 2⟩, ⟨"C", 3⟩] : List SetlistSong).length ∧
      results.map (fun r => r.songName) =
        ([⟨"A", 1⟩, ⟨"B", 2⟩, ⟨"C", 3⟩] : List SetlistSong).map (fun s => s.name) ∧
      ∀ r ∈ results, r.found = false → r.trackUri = none :=
  matchAllTracks_map_not_filter exLookup "The Band"
    [⟨"A", 1⟩, ⟨"B", 2⟩, ⟨"C", 3⟩] (by decide)

/-- C7: a transiently failing lookup yields `{songName, null, false}` instead
of throwing, and with no authentication failure the pass still covers every
song — one result per song, every song looked up, nothing aborted. -/
theorem transient_failure_isolated (lookup : String → String → SearchOutcome)
    (artistName : String) (songs : List SetlistSong)
    (h : ∀ s ∈ songs, lookup s.name artistName ≠ .authError) :
    (∀ n, lookup n artistName = .otherError →
      searchSpotifyTrack lookup n artistName = .ok ⟨n, none, false⟩) ∧
    (matchAllTracks lookup songs artistName).1 =
      .ok (songs.map (fun s => searchOk lookup s.name artistName)) ∧
    (matchAllTracks lookup songs artistName).2 = songs.map (fun s => s.name) := by
  refine ⟨?_, ?_, ?_⟩
  · intro n hn
    simp [searchSpotifyTrack, hn]
  · rw [matchAllTracks_no_auth lookup artistName songs h]
  · rw [matchAllTracks_no_auth lookup artistName songs h]

/-- Witness for C7: song `B` fails transiently, yet all three songs of the
run are looked up and resolved to a result. -/
theorem transient_failure_isolated_witness :
    (∀ n, exLookup n "The Band" = .otherError →
      searchSpotifyTrack exLookup n "The Band" = .ok ⟨n, none, false⟩) ∧
    (matchAllTracks exLookup [⟨"A", 1⟩, ⟨"B", 2⟩, ⟨"C", 3⟩] "The Band").1 =
      .ok (([⟨"A", 1⟩, ⟨"B", 2⟩, ⟨"C", 3⟩] : List SetlistSong).map
        (fun s => searchOk exLookup s.name "The Band")) ∧
    (matchAllTracks exLookup [⟨"A", 1⟩, ⟨"B", 2⟩, ⟨"C", 3⟩] "The Band").2 =
      ([⟨"A", 1⟩, ⟨"B", 2⟩, ⟨"C", 3⟩] : List SetlistSong).map (fun s => s.name) :=
  transient_failure_isolated exLookup "The Band"
    [⟨"A", 1⟩, ⟨"B", 2⟩, ⟨"C", 3⟩] (by decide)

theorem matchAllTracks_abort (lookup : String → String → SearchOutcome)
    (artistName : String) :
    ∀ (songs : List SetlistSong) (i : Nat) (hi : i < songs.length),
      lookup (songs.get ⟨i, hi⟩).name artistName = .authError →
      (∀ j (hj : j < i),
        lookup (songs.get ⟨j, Nat.lt_trans hj hi⟩).name artistName ≠ .authError) →
      matchAllTracks lookup songs artistName =
        (.error .AuthenticationError, (songs.take (i + 1)).map (fun s => s.name)) := by
  intro songs
  induction songs with
  | nil => intro i hi; exact absurd hi (Nat.not_lt_zero i)
  | cons s rest ih =>
    intro i hi hauth hpre
    cases i with
    | zero =>
      have hs : lookup s.name artistName = .authError := hauth
      have hsearch : searchSpotifyTrack lookup s.name artistName =
          .error .AuthenticationError := by
        simp [searchSpotifyTrack, hs]
      simp [matchAllTracks, hsearch, List.take]
    | succ j =>
      have hs : lookup s.name artistName ≠ .authError := hpre 0 (Nat.succ_pos j)
      have hrest := ih j (Nat.lt_of_succ_lt_succ hi) hauth
        (fun j2 hj2 => hpre (j2 + 1) (Nat.succ_lt_succ hj2))
      simp only [matchAllTracks,
        searchSpotifyTrack_not_auth lookup s.name artistName hs, hrest,
        List.take_succ_cons, List.map_cons]

/-- C4: an authentication failure at song `i` stops the resolution pass at
song `i` (the lookup trace is exactly the first `i + 1` song names), the
pipeline fails with `AuthenticationError`, and no Spotify call is ever
issued — the Builder is never invoked. -/
theorem pipeline_auth_abort (env : Env) (req : CreatePlaylistRequest)
    (currentYear : Int) (songs : List SetlistSong) (yrs : List Int) (i : Nat)
    (h1 : ¬ isBlank req.accessToken = true) (h2 : ¬ isBlank req.artistId = true)
    (h3 : ¬ isBlank req.artistName = true) (hk : env.apiKey.isSome = true)
    (hagg : getAverageSetlist env.fetchSongs req.artistId req.year currentYear
      = (.ok songs, yrs))
    (hi : i < songs.length)
    (hauth : env.lookup (songs.get ⟨i, hi⟩).name req.artistName = .authError)
    (hpre : ∀ j (hj : j < i),
      env.lookup (songs.get ⟨j, Nat.lt_trans hj hi⟩).name req.artistName ≠
        .authError) :
    handleCreatePlaylist env req currentYear =
      (.error .AuthenticationError,
       ⟨yrs, (songs.take (i + 1)).map (fun s => s.name), []⟩) := by
  have hmatch := matchAllTracks_abort env.lookup req.artistName songs i hi hauth hpre
  obtain ⟨k, hk2⟩ := Option.isSome_iff_exists.mp hk
  unfold handleCreatePlaylist
  rw [if_neg h1, if_neg h2, if_neg h3, hk2, hagg]
  simp only [hmatch]

/-- Witness for C4 at a concrete run: the credential expires at song `B`
(index 1) of three; `A` and `B` are looked up, `C` is not, no Spotify call
happens. -/
theorem pipeline_auth_abort_witness :
    handleCreatePlaylist exEnvAuth exReq 2030 =
      (.error .AuthenticationError, ⟨[2024], ["A", "B"], []⟩) := by
  have h := pipeline_auth_abort exEnvAuth exReq 2030
    [⟨"A", 1⟩, ⟨"B", 2⟩, ⟨"C", 3⟩] [2024] 1
    (by decide) (by decide) (by decide) (by decide) rfl
    (by decide) (by decide) (by decide)
  exact h

theorem searchSpotifyTrack_ok_shape (lookup : String → String → SearchOutcome)
    (songName artistName : String) (r0 : TrackSearchResult)
    (h : searchSpotifyTrack lookup songName artistName = .ok r0) :
    (r0.found = true → r0.trackUri.isSome = true) ∧
    (r0.found = false → r0.trackUri = none) := by
  unfold searchSpotifyTrack at h
  cases hl : lookup songName artistName with
  | foundTrack uri =>
    rw [hl] at h
    injection h with h
    subst h
    simp
  | notFound =>
    rw [hl] at h
    injection h with h
    subst h
    simp
  | authError =>
    rw [hl] at h
    simp at h
  | otherError =>
    rw [hl] at h
    injection h with h
    subst h
    simp

theorem matchAllTracks_ok_found (lookup : String → String → SearchOutcome)
    (artistName : String) :
    ∀ (songs : List SetlistSong) (results : List TrackSearchResult)
      (looked : List String),
      matchAllTracks lookup songs artistName = (.ok results, looked) →
      ∀ r ∈ results, (r.found = true → r.trackUri.isSome = true) ∧
        (r.found = false → r.trackUri = none) := by
  intro songs
  induction songs with
  | nil =>
    intro results looked h r hr
    simp only [matchAllTracks] at h
    injection h with h1 h2
    injection h1 with h1
    subst h1
    cases hr
  | cons s rest ih =>
    intro results looked h r hr
    simp only [matchAllTracks] at h
    cases hs : searchSpotifyTrack lookup s.name artistName with
    | error e =>
      rw [hs] at h
      simp at h
    | ok r0 =>
      rw [hs] at h
      rcases hm : matchAllTracks lookup rest artistName with ⟨res2, tr2⟩
      rw [hm] at h
      cases res2 with
      | error e => simp at h
      | ok rs =>
        injection h with h1 h2
        injection h1 with h1
        subst h1
        rcases List.mem_cons.mp hr with rfl | hr2
        · exact searchSpotifyTrack_ok_shape lookup s.name artistName r hs
        · exact ih rs tr2 hm r hr2

theorem handleCreatePlaylist_ok (env : Env) (req : CreatePlaylistRequest)
    (currentYear : Int) (k uid pid : String) (songs : List SetlistSong)
    (yrs : List Int) (results : List TrackSearchResult) (looked : List String)
    (h1 : ¬ isBlank req.accessToken = true) (h2 : ¬ isBlank req.artistId = true)
    (h3 : ¬ isBlank req.artistName = true) (hk : env.apiKey = some k)
    (hagg : getAverageSetlist env.fetchSongs req.artistId req.year currentYear
      = (.ok songs, yrs))
    (hres : matchAllTracks env.lookup songs req.artistName = (.ok results, looked))
    (hu : env.userIdResult = .ok uid) (hc : env.createResult = .ok pid)
    (ha : env.addResult = .ok ()) :
    handleCreatePlaylist env req currentYear =
      (.ok ⟨pid, (trackUrisOf results).length, req.year.getD currentYear⟩,
       ⟨yrs, looked,
        .getUser ::
          .createCall uid
            (createSpotifyPlaylistName req.artistName (req.year.getD currentYear))
            false
            (createSpotifyPlaylistDescription req.artistName
              (req.year.getD currentYear)) ::
          (if (trackUrisOf results).length = 0 then []
           else [.addItems pid (trackUrisOf results)])⟩) := by
  unfold handleCreatePlaylist
  rw [if_neg h1, if_neg h2, if_neg h3, hk, hagg]
  simp only [hres]
  unfold createPlaylist getUserId createSpotifyPlaylist addTracksToPlaylist
  rw [hu, hc]
  by_cases hlen : (trackUrisOf results).length = 0
  · simp [hlen]
  · simp [hlen, ha]

/-- C5: on every successful pipeline run, `tracksAdded` equals the number of
resolution results with `found = true` produced by the resolution stage. -/
theorem tracksAdded_eq_found_count (env : Env) (req : CreatePlaylistRequest)
    (currentYear : Int) (k uid pid : String) (songs : List SetlistSong)
    (yrs : List Int) (results : List TrackSearchResult) (looked : List String)
    (h1 : ¬ isBlank req.accessToken = true) (h2 : ¬ isBlank req.artistId = true)
    (h3 : ¬ isBlank req.artistName = true) (hk : env.apiKey = some k)
    (hagg : getAverageSetlist env.fetchSongs req.artistId req.year currentYear
      = (.ok songs, yrs))
    (hres : matchAllTracks env.lookup songs req.artistName = (.ok results, looked))
    (hu : env.userIdResult = .ok uid) (hc : env.createResult = .ok pid)
    (ha : env.addResult = .ok ()) :
    ∃ pr trace, handleCreatePlaylist env req currentYear = (.ok pr, trace) ∧
      pr.tracksAdded = results.countP (fun r => r.found) := by
  refine ⟨_, _, handleCreatePlaylist_ok env req currentYear k uid pid songs yrs
    results looked h1 h2 h3 hk hagg hres hu hc ha, ?_⟩
  show (trackUrisOf results).length = results.countP (fun r => r.found)
  have hfound := matchAllTracks_ok_found env.lookup req.artistName songs
    results looked hres
  unfold trackUrisOf
  rw [List.length_map, ← List.countP_eq_length_filter]
  refine List.countP_congr ?_
  intro r hr
  constructor
  · intro hp
    exact (Bool.and_eq_true _ _).mp hp |>.1
  · intro hq
    have hsome := (hfound r hr).1 hq
    simp [hq, hsome]

/-- Witness for C5 at a concrete run: of three songs only `A` resolves, the
playlist reports exactly one track added. -/
theorem tracksAdded_eq_found_count_witness :
    ∃ pr trace, handleCreatePlaylist exEnv exReq 2030 = (.ok pr, trace) ∧
      pr.tracksAdded =
        ([⟨"A", some "spotify:track:a", true⟩, ⟨"B", none, false⟩,
          ⟨"C", none, false⟩] : List TrackSearchResult).countP
          (fun r => r.found) :=
  tracksAdded_eq_found_count exEnv exReq 2030 "key" "user1" "pl1"
    [⟨"A", 1⟩, ⟨"B", 2⟩, ⟨"C", 3⟩] [2024]
    [⟨"A", some "spotify:track:a", true⟩, ⟨"B", none, false⟩, ⟨"C", none, false⟩]
    ["A", "B", "C"]
    (by decide) (by decide) (by decide) rfl rfl rfl rfl rfl rfl

theorem createPlaylist_calls_shape (env : Env) (artistName : String)
    (year : Int) (trackUris : List String) :
    (createPlaylist env artistName year trackUris).2 = [SpotifyCall.getUser] ∨
    ∃ uid, env.userIdResult = .ok uid ∧
      ((createPlaylist env artistName year trackUris).2 =
        [.getUser,
         .createCall uid (createSpotifyPlaylistName artistName year) false
           (createSpotifyPlaylistDescription artistName year)] ∨
       ∃ pid, (createPlaylist env artistName year trackUris).2 =
        [.getUser,
         .createCall uid (createSpotifyPlaylistName artistName year) false
           (createSpotifyPlaylistDescription artistName year),
         .addItems pid trackUris]) := by
  unfold createPlaylist getUserId createSpotifyPlaylist addTracksToPlaylist
  cases hu : env.userIdResult with
  | error e =>
    left
    simp [hu]
  | ok uid =>
    right
    refine ⟨uid, rfl, ?_⟩
    cases hc : env.createResult with
    | error e =>
      left
      simp [hu, hc]
    | ok pid =>
      by_cases hlen : trackUris.length = 0
      · left
        simp [hu, hc, hlen]
      · right
        refine ⟨pid, ?_⟩
        cases ha : env.addResult with
        | error e => simp [hu, hc, hlen, ha]
        | ok u => simp [hu, hc, hlen, ha]

/-- C6: every creation call any build issues carries exactly the name
`"{artistName} — Average Setlist {year}"` (em-dash, exact spacing) and
private visibility (`public: false`) — visibility is never configurable. -/
theorem createSpotifyPlaylist_fixed_name (env : Env) (artistName : String)
    (year : Int) (trackUris : List String) (uid plName : String)
    (isPublic : Bool) (description : String)
    (h : SpotifyCall.createCall uid plName isPublic description ∈
      (createPlaylist env artistName year trackUris).2) :
    plName = artistName ++ " — Average Setlist " ++ toString year ∧
      isPublic = false := by
  rcases createPlaylist_calls_shape env artistName year trackUris with
    hs | ⟨uid2, _, hs | ⟨pid, hs⟩⟩
  · rw [hs] at h
    simp at h
  · rw [hs] at h
    rcases List.mem_cons.mp h with hm | hm
    · exact absurd hm (by simp)
    · have hm2 := List.mem_singleton.mp hm
      injection hm2 with e1 e2 e3 e4
      exact ⟨e2, e3⟩
  · rw [hs] at h
    rcases List.mem_cons.mp h with hm | hm
    · exact absurd hm (by simp)
    · rcases List.mem_cons.mp hm with hm2 | hm2
      · injection hm2 with e1 e2 e3 e4
        exact ⟨e2, e3⟩
      · have hm3 := List.mem_singleton.mp hm2
        exact absurd hm3 (by simp)

/-- Witness for C6 at a concrete build: the one creation call of the run
carries the fixed name and `public: false`. -/
theorem createSpotifyPlaylist_fixed_name_witness :
    "The Band — Average Setlist 2024" =
        "The Band" ++ " — Average Setlist " ++ toString (2024 : Int) ∧
      false = false :=
  createSpotifyPlaylist_fixed_name exEnv "The Band" 2024 [] "user1"
    "The Band — Average Setlist 2024" false
    "Average setlist for The Band in 2024" (by decide)

/-- C8: a build with an empty identifier list skips the population call
entirely (no add-items call, no error — whatever the population endpoint
would have answered), still creates the named private collection and reports
`tracksAdded = 0`; a non-empty list is added in one single population call
preserving the input order. -/
theorem addTracks_skip_on_empty (env : Env) (artistName : String) (year : Int)
    (trackUris : List String) (uid pid : String)
    (hu : env.userIdResult = .ok uid) (hc : env.createResult = .ok pid) :
    (trackUris = [] →
      createPlaylist env artistName year trackUris =
        (.ok ⟨pid, 0, year⟩,
         [.getUser,
          .createCall uid (createSpotifyPlaylistName artistName year) false
            (createSpotifyPlaylistDescription artistName year)])) ∧
    (trackUris ≠ [] → env.addResult = .ok () →
      createPlaylist env artistName year trackUris =
        (.ok ⟨pid, trackUris.length, year⟩,
         [.getUser,
          .createCall uid (createSpotifyPlaylistName artistName year) false
            (createSpotifyPlaylistDescription artistName year),
          .addItems pid trackUris])) := by
  constructor
  · intro he
    subst he
    simp [createPlaylist, getUserId, createSpotifyPlaylist,
      addTracksToPlaylist, hu, hc]
  · intro hne ha
    have hlen : ¬ (trackUris.length = 0) :=
      fun h0 => hne (List.length_eq_zero.mp h0)
    simp [createPlaylist, getUserId, createSpotifyPlaylist,
      addTracksToPlaylist, hu, hc, ha, hlen]

/-- Witness for C8 at concrete builds: the empty build issues no add-items
call and reports zero tracks even though the population endpoint of this
environment would answer; the two-track build issues one call with both
URIs in order. -/
theorem addTracks_skip_on_empty_witness :
    createPlaylist exEnv "The Band" 2024 [] =
      (.ok ⟨"pl1", 0, 2024⟩,
       [.getUser,
        .createCall "user1" (createSpotifyPlaylistName "The Band" 2024) false
          (createSpotifyPlaylistDescription "The Band" 2024)]) ∧
    createPlaylist exEnv "The Band" 2024 ["u1", "u2"] =
      (.ok ⟨"pl1", 2, 2024⟩,
       [.getUser,
        .createCall "user1" (createSpotifyPlaylistName "The Band" 2024) false
          (createSpotifyPlaylistDescription "The Band" 2024),
        .addItems "pl1" ["u1", "u2"]]) := by
  constructor
  · exact (addTracks_skip_on_empty exEnv "The Band" 2024 [] "user1" "pl1"
      rfl rfl).1 rfl
  · exact (addTracks_skip_on_empty exEnv "The Band" 2024 ["u1", "u2"] "user1"
      "pl1" rfl rfl).2 (by decide) rfl

/-- C9: a request whose access token, artist id or artist name is blank
after trimming fails with a `ValidationError` naming an offending field,
with an empty interaction trace — no external stage is ever invoked. -/
theorem validation_before_external (env : Env) (req : CreatePlaylistRequest)
    (currentYear : Int)
    (h : isBlank req.accessToken = true ∨ isBlank req.artistId = true ∨
      isBlank req.artistName = true) :
    ∃ f, handleCreatePlaylist env req currentYear =
        (.error (.ValidationError f), emptyTrace) ∧
      ((f = "accessToken" ∧ isBlank req.accessToken = true) ∨
       (f = "artistId" ∧ isBlank req.artistId = true) ∨
       (f = "artistName" ∧ isBlank req.artistName = true)) := by
  by_cases h1 : isBlank req.accessToken = true
  · exact ⟨"accessToken", by simp [handleCreatePlaylist, h1], Or.inl ⟨rfl, h1⟩⟩
  · by_cases h2 : isBlank req.artistId = true
    · exact ⟨"artistId", by simp [handleCreatePlaylist, h1, h2],
        Or.inr (Or.inl ⟨rfl, h2⟩)⟩
    · have h3 : isBlank req.artistName = true := by tauto
      exact ⟨"artistName", by simp [handleCreatePlaylist, h1, h2, h3],
        Or.inr (Or.inr ⟨rfl, h3⟩)⟩

/-- Witness for C9 at a concrete request whose artist id is whitespace. -/
theorem validation_before_external_witness :
    ∃ f, handleCreatePlaylist exEnv exReqBlankId 2030 =
        (.error (.ValidationError f), emptyTrace) ∧
      ((f = "accessToken" ∧ isBlank exReqBlankId.accessToken = true) ∨
       (f = "artistId" ∧ isBlank exReqBlankId.artistId = true) ∨
       (f = "artistName" ∧ isBlank exReqBlankId.artistName = true)) :=
  validation_before_external exEnv exReqBlankId 2030
    (Or.inr (Or.inl (by decide)))

/-- C10: every successful run reports as `year` — in the result and inside
the playlist name — the originally requested year (the current year when the
request omits one), never the fallback year the Aggregator may have drawn
its data from. -/
theorem reported_year_is_requested (env : Env) (req : CreatePlaylistRequest)
    (currentYear : Int) (k uid pid : String) (songs : List SetlistSong)
    (yrs : List Int) (results : List TrackSearchResult) (looked : List String)
    (h1 : ¬ isBlank req.accessToken = true) (h2 : ¬ isBlank req.artistId = true)
    (h3 : ¬ isBlank req.artistName = true) (hk : env.apiKey = some k)
    (hagg : getAverageSetlist env.fetchSongs req.artistId req.year currentYear
      = (.ok songs, yrs))
    (hres : matchAllTracks env.lookup songs req.artistName = (.ok results, looked))
    (hu : env.userIdResult = .ok uid) (hc : env.createResult = .ok pid)
    (ha : env.addResult = .ok ()) :
    ∃ pr trace, handleCreatePlaylist env req currentYear = (.ok pr, trace) ∧
      pr.year = req.year.getD currentYear ∧
      trace.fetchedYears = yrs ∧
      ∀ u n p d, SpotifyCall.createCall u n p d ∈ trace.spotifyCalls →
        n = createSpotifyPlaylistName req.artistName (req.year.getD currentYear) := by
  refine ⟨_, _, handleCreatePlaylist_ok env req currentYear k uid pid songs yrs
    results looked h1 h2 h3 hk hagg hres hu hc ha, rfl, rfl, ?_⟩
  intro u n p d hmem
  rcases List.mem_cons.mp hmem with hm | hm
  · exact absurd hm (by simp)
  · rcases List.mem_cons.mp hm with hm2 | hm2
    · injection hm2 with e1 e2 e3 e4
    · by_cases hlen : (trackUrisOf results).length = 0
      · rw [if_pos hlen] at hm2
        cases hm2
      · rw [if_neg hlen] at hm2
        have hm3 := List.mem_singleton.mp hm2
        exact absurd hm3 (by simp)

/-- Witness for C10 at a concrete run whose data comes from the fallback
year 2023: the result still reports the requested year 2024. -/
theorem reported_year_is_requested_witness :
    ∃ pr trace, handleCreatePlaylist exEnvFallback exReq 2030 = (.ok pr, trace) ∧
      pr.year = exReq.year.getD 2030 ∧
      trace.fetchedYears = [2024, 2023] ∧
      ∀ u n p d, SpotifyCall.createCall u n p d ∈ trace.spotifyCalls →
        n = createSpotifyPlaylistName exReq.artistName (exReq.year.getD 2030) :=
  reported_year_is_requested exEnvFallback exReq 2030 "key" "user1" "pl1"
    [⟨"X", 1⟩] [2024, 2023] [⟨"X", none, false⟩] ["X"]
    (by decide) (by decide) (by decide) rfl rfl rfl rfl rfl rfl
